import Mathlib

/-!
Verification of the AppRecords program (src/application_record.py, src/main.py)
against its specification.

Shallow embedding conventions:
* A Python `datetime.datetime` is modelled by `PyDateTime`: `sec` is the naive
  wall-clock reading as whole seconds since 1970-01-01 (proleptic Gregorian),
  `usec` the sub-second microseconds, and `tz` the `tzinfo`'s `utcoffset` in
  seconds (`none` = naive value).
* The target CSV file is modelled by `Option String`: `none` means the file
  does not exist, `some c` that it exists with content `c`.
* The system's local timezone (used by `datetime.astimezone` when applied to a
  naive value) is passed around as an explicit offset parameter `localOff`;
  the program never actually reaches that case, which theorems witness by
  quantifying over `localOff`.
* `datetime.datetime.now(datetime.timezone.utc)` is modelled by explicit
  parameters `nowSec`/`nowUsec` for the current instant.
-/

/-- Seconds-since-epoch model of Python `datetime.datetime`. -/
structure PyDateTime where
  sec : Int
  usec : Nat
  tz : Option Int
deriving DecidableEq, Repr

/-- Python whitespace characters stripped by `str.strip()` (ASCII subset). -/
def isPySpace (c : Char) : Bool :=
  c = ' ' ∨ c = '\t' ∨ c = '\n' ∨ c = '\r' ∨ c = '\x0b' ∨ c = '\x0c'

/-- Model of Python `str.strip()` (no arguments): drop whitespace at both ends. -/
def pyStrip (s : String) : String :=
  String.mk (((s.data.dropWhile isPySpace).reverse.dropWhile isPySpace).reverse)

/-- Model of Python `str.endswith(c)` for a single character. -/
def pyEndsWith (s : String) (c : Char) : Bool :=
  s.data.getLast? = some c

/-- Model of the Python slice `s[:-1]`. -/
def pyDropLast (s : String) : String :=
  String.mk s.data.dropLast

/-- Decimal digit characters, two-digit zero-padded (`%02d`). -/
def pad2 (n : Nat) : String :=
  String.mk [Nat.digitChar (n / 10 % 10), Nat.digitChar (n % 10)]

/-- Four-digit zero-padded decimal (`%04d`), as used for the year field. -/
def pad4 (n : Nat) : String :=
  String.mk [Nat.digitChar (n / 1000 % 10), Nat.digitChar (n / 100 % 10),
             Nat.digitChar (n / 10 % 10), Nat.digitChar (n % 10)]

/-- Gregorian `(year, month, day)` from days since 1970-01-01
(Howard Hinnant's `civil_from_days`). -/
def civilFromDays (z0 : Int) : Int × Nat × Nat :=
  let z := z0 + 719468
  let era := z.fdiv 146097
  let doe := z - era * 146097
  let yoe := (doe - doe.fdiv 1460 + doe.fdiv 36524 - doe.fdiv 146096).fdiv 365
  let y := yoe + era * 400
  let doy := doe - (365 * yoe + yoe.fdiv 4 - yoe.fdiv 100)
  let mp := (5 * doy + 2).fdiv 153
  let d := doy - (153 * mp + 2).fdiv 5 + 1
  let m := if mp < 10 then mp + 3 else mp - 9
  (y + (if m ≤ 2 then 1 else 0), m.toNat, d.toNat)

/-- Days since 1970-01-01 of a Gregorian date (Hinnant's `days_from_civil`). -/
def daysFromCivil (y m d : Int) : Int :=
  let y1 := y - (if m ≤ 2 then 1 else 0)
  let era := y1.fdiv 400
  let yoe := y1 - era * 400
  let doy := (153 * (m + (if m > 2 then (-3 : Int) else 9)) + 2).fdiv 5 + d - 1
  let doe := yoe * 365 + yoe.fdiv 4 - yoe.fdiv 100 + doy
  era * 146097 + doe - 719468

/-- `YYYY-MM-DDTHH:MM:SS` rendering of naive seconds since the epoch: this is
Python `datetime.isoformat(timespec="seconds")` on a naive value (the
microsecond component is dropped, i.e. truncation to whole seconds). -/
def isoFormatSec (t : Int) : String :=
  let days := t.fdiv 86400
  let sod := (t - 86400 * days).toNat
  let c := civilFromDays days
  pad4 c.1.toNat ++ "-" ++ pad2 c.2.1 ++ "-" ++ pad2 c.2.2 ++ "T" ++
    pad2 (sod / 3600) ++ ":" ++ pad2 (sod % 3600 / 60) ++ ":" ++ pad2 (sod % 60)

/-- `+HH:MM` / `-HH:MM` offset suffix that `isoformat` appends to an aware
value (`""` for a naive one). Sub-minute components never arise in this
program, so they are not rendered. -/
def offsetSuffix : Option Int → String
  | none => ""
  | some off =>
      (if off < 0 then "-" else "+") ++ pad2 (off.natAbs / 3600) ++ ":" ++
        pad2 (off.natAbs % 3600 / 60)

/-- Python `dt.isoformat(timespec="seconds")`. -/
def pyIsoformatSec (d : PyDateTime) : String :=
  isoFormatSec d.sec ++ offsetSuffix d.tz

/-- Python `dt.replace(tzinfo=...)`: swap the zone, keep the wall-clock fields. -/
def replaceTz (tz : Option Int) (d : PyDateTime) : PyDateTime :=
  { d with tz := tz }

/-- Python `dt.astimezone(datetime.timezone.utc)`. An aware value keeps its
instant (`sec - off`) and becomes UTC; a naive value is interpreted as system
local time, whose offset is the explicit parameter `localOff`. -/
def astimezoneToUtc (localOff : Int) (d : PyDateTime) : PyDateTime :=
  match d.tz with
  | some off => ⟨d.sec - off, d.usec, some 0⟩
  | none => ⟨d.sec - localOff, d.usec, some 0⟩

/-- The possible runtime types of the `timestamp` argument: a `datetime`, a
`str`, or any other value (e.g. an `int`). -/
inductive PyValue where
  | dt (d : PyDateTime)
  | str (s : String)
  | other
deriving DecidableEq, Repr

/-- `ApplicationRecord._to_iso_utc` (src/application_record.py:76-90). -/
def toIsoUtc (localOff : Int) : PyValue → Except String String
  | .dt d =>
      let dt := if d.tz = none then replaceTz (some 0) d else astimezoneToUtc localOff d
      .ok (pyIsoformatSec (replaceTz none dt) ++ "Z")
  | .str s => .ok s
  | .other => .error "timestamp must be a datetime or ISO8601 string"

/-- The in-memory state of an `ApplicationRecord`. -/
structure ApplicationRecord where
  timestamp : String
  company_name : String
  application_id : String
deriving DecidableEq, Repr

/-- `ApplicationRecord.__init__` (src/application_record.py:13-24). A `None`
timestamp defaults to `datetime.now(timezone.utc)`, i.e. the aware UTC value
`⟨nowSec, nowUsec, some 0⟩`. `str()` on the (string) name and id arguments is
the identity. A `TypeError` raised by `_to_iso_utc` propagates as `.error`. -/
def mkRecord (localOff nowSec : Int) (nowUsec : Nat) (timestamp : Option PyValue)
    (company applicationId : String) : Except String ApplicationRecord :=
  match toIsoUtc localOff (timestamp.getD (.dt ⟨nowSec, nowUsec, some 0⟩)) with
  | .ok t => .ok ⟨t, company, applicationId⟩
  | .error e => .error e

/-- The `timestamp` property setter (src/application_record.py:31-33). -/
def setTimestamp (localOff : Int) (r : ApplicationRecord) (v : PyValue) :
    Except String ApplicationRecord :=
  match toIsoUtc localOff v with
  | .ok t => .ok { r with timestamp := t }
  | .error e => .error e

/-- `ApplicationRecord.CSV_HEADER` (src/application_record.py:11). -/
def CSV_HEADER : List String := ["timestamp", "company_name", "application_id"]

/-- `ApplicationRecord.to_csv_row` (src/application_record.py:57-59). -/
def toCsvRow (r : ApplicationRecord) : List String :=
  [r.timestamp, r.company_name, r.application_id]

/-- Double every quote character, as `csv.writer` does inside a quoted field. -/
def escapeQuotes : List Char → List Char
  | [] => []
  | '"' :: rest => '"' :: '"' :: escapeQuotes rest
  | c :: rest => c :: escapeQuotes rest

/-- `csv.QUOTE_MINIMAL`: a field is quoted exactly when it contains the
delimiter, the quote character, or a line-terminator character. -/
def needsQuote (s : String) : Bool :=
  s.data.any (fun c => c = ',' ∨ c = '"' ∨ c = '\r' ∨ c = '\n')

/-- One field as emitted by `csv.writer` with the default dialect. -/
def csvField (s : String) : String :=
  if needsQuote s then "\"" ++ String.mk (escapeQuotes s.data) ++ "\"" else s

/-- Comma-join of the rendered fields. -/
def joinComma : List String → String
  | [] => ""
  | [f] => f
  | f :: rest => f ++ "," ++ joinComma rest

/-- `csv.writer(...).writerow(fields)`: the default dialect terminates every
row with CRLF (the file is opened with `newline=""`, so the terminator is
written through verbatim). -/
def csvRowStr (fields : List String) : String :=
  joinComma (fields.map csvField) ++ "\r\n"

/-- `ApplicationRecord.append_to_csv` (src/application_record.py:61-74) acting
on the file model: `none` = the path does not exist, `some c` = it exists with
content `c`. The header is written when the file does not exist or has size
zero; opening in `"a"` mode creates the file and appends. The result is the
file content after the call. -/
def appendToCsv (r : ApplicationRecord) (file : Option String) : String :=
  let content := file.getD ""
  content ++
    (if file = none ∨ content = "" then csvRowStr CSV_HEADER else "") ++
    csvRowStr (toCsvRow r)

/-- `append_to_csv` as a state-passing method call: it returns the (unchanged)
receiver together with the write's outcome. `ioOk = false` models an
underlying I/O failure (e.g. `OSError` from `open`/`write`), which the method
does not catch; the source method never assigns to any `self` field. -/
def appendToCsvM (self : ApplicationRecord) (file : Option String) (ioOk : Bool) :
    ApplicationRecord × Except String String :=
  (self, if ioOk then .ok (appendToCsv self file) else .error "OSError")

/-! ### A CSV reader (for the read-back in the round-trip property)

`csvScan` is a direct state machine for the default `csv` dialect: `inQ`
says whether the scanner is inside a quoted field, `field`/`fields` accumulate
the current field and row, `rows` the finished rows. -/

def csvScan : Bool → String → List String → List (List String) → List Char →
    List (List String)
  | true, field, fields, rows, '"' :: '"' :: rest =>
      csvScan true (field.push '"') fields rows rest
  | true, field, fields, rows, '"' :: rest => csvScan false field fields rows rest
  | true, field, fields, rows, c :: rest => csvScan true (field.push c) fields rows rest
  | false, field, fields, rows, '"' :: rest => csvScan true field fields rows rest
  | false, field, fields, rows, ',' :: rest => csvScan false "" (fields ++ [field]) rows rest
  | false, field, fields, rows, '\r' :: '\n' :: rest =>
      csvScan false "" [] (rows ++ [fields ++ [field]]) rest
  | false, field, fields, rows, '\n' :: rest =>
      csvScan false "" [] (rows ++ [fields ++ [field]]) rest
  | false, field, fields, rows, c :: rest => csvScan false (field.push c) fields rows rest
  | _, field, fields, rows, [] =>
      if fields.isEmpty && field == "" then rows else rows ++ [fields ++ [field]]

/-- Parse a CSV text into its rows (reading the file back as delimited text). -/
def parseCsv (s : String) : List (List String) :=
  csvScan false "" [] [] s.data

/-! ### `datetime.datetime.fromisoformat`

The grammar accepted by `fromisoformat` as the source relies on it (the code
rewrites a trailing `Z` itself, i.e. the pre-3.11 grammar, which is exactly
the output of `isoformat`): `YYYY-MM-DD[<any one char>HH[:MM[:SS[.fff|.ffffff]]]
[{+|-}HH:MM[:SS]]]`. Failure (Python `ValueError`) is `none`. Sub-second
timezone offsets never occur in this program and are not modelled. -/

/-- The numeric value of a decimal digit character, if it is one. -/
def digitVal : Char → Option Nat
  | c => if '0' ≤ c ∧ c ≤ '9' then some (c.toNat - 48) else none

/-- Exactly two decimal digits. -/
def parse2D : List Char → Option (Nat × List Char)
  | a :: b :: rest =>
      match digitVal a, digitVal b with
      | some x, some y => some (10 * x + y, rest)
      | _, _ => none
  | _ => none

/-- Exactly four decimal digits. -/
def parse4D : List Char → Option (Nat × List Char)
  | a :: b :: c :: d :: rest =>
      match digitVal a, digitVal b, digitVal c, digitVal d with
      | some w, some x, some y, some z => some (1000 * w + 100 * x + 10 * y + z, rest)
      | _, _, _, _ => none
  | _ => none

/-- Require the next character to be `ch`. -/
def expectChar (ch : Char) : List Char → Option (List Char)
  | c :: rest => if c = ch then some rest else none
  | [] => none

/-- Gregorian leap year. -/
def isLeap (y : Nat) : Bool :=
  y % 4 = 0 ∧ (y % 100 ≠ 0 ∨ y % 400 = 0)

/-- Number of days in a month. -/
def daysInMonth (y m : Nat) : Nat :=
  if m = 2 then (if isLeap y then 29 else 28)
  else if m = 4 ∨ m = 6 ∨ m = 9 ∨ m = 11 then 30
  else 31

/-- The `YYYY-MM-DD` date part, with the range checks the `datetime`
constructor performs (`MINYEAR = 1`). -/
def parseDate (cs : List Char) : Option ((Nat × Nat × Nat) × List Char) := do
  let (y, cs) ← parse4D cs
  let cs ← expectChar '-' cs
  let (m, cs) ← parse2D cs
  let cs ← expectChar '-' cs
  let (d, cs) ← parse2D cs
  if 1 ≤ y ∧ 1 ≤ m ∧ m ≤ 12 ∧ 1 ≤ d ∧ d ≤ daysInMonth y m then
    some ((y, m, d), cs)
  else none

/-- Numeric value of a run of digit characters. -/
def digitsVal (l : List Char) : Nat :=
  l.foldl (fun a c => 10 * a + (c.toNat - 48)) 0

/-- The `[:MM[:SS[.fff|.ffffff]]]` tail of the time part, yielding
`(minute, second, microsecond, rest)`. A fraction must have exactly three or
six digits. -/
def parseMSF (cs : List Char) : Option (Nat × Nat × Nat × List Char) :=
  match cs with
  | ':' :: cs1 => do
      let (m, cs2) ← parse2D cs1
      match cs2 with
      | ':' :: cs3 => do
          let (s, cs4) ← parse2D cs3
          match cs4 with
          | '.' :: cs5 =>
              let ds := cs5.takeWhile (fun c => decide ('0' ≤ c ∧ c ≤ '9'))
              if ds.length = 3 then some (m, s, digitsVal ds * 1000, cs5.drop 3)
              else if ds.length = 6 then some (m, s, digitsVal ds, cs5.drop 6)
              else none
          | _ => some (m, s, 0, cs4)
      | _ => some (m, 0, 0, cs2)
  | _ => some (0, 0, 0, cs)

/-- The `HH[:MM[:SS[.ffffff]]]` time part, with the `datetime` range checks. -/
def parseTime (cs : List Char) : Option ((Nat × Nat × Nat × Nat) × List Char) := do
  let (h, cs) ← parse2D cs
  let (m, s, us, cs) ← parseMSF cs
  if h ≤ 23 ∧ m ≤ 59 ∧ s ≤ 59 then some ((h, m, s, us), cs) else none

/-- The optional `{+|-}HH:MM[:SS]` offset, which must reach the end of the
input; `timezone` requires the offset magnitude to be under 24 hours. -/
def parseTz (cs : List Char) : Option (Option Int) :=
  match cs with
  | [] => some none
  | c :: rest =>
      if c = '+' ∨ c = '-' then do
        let (hh, cs) ← parse2D rest
        let cs ← expectChar ':' cs
        let (mm, cs) ← parse2D cs
        let (ss, cs) ← (match cs with
          | ':' :: cs2 => parse2D cs2
          | _ => some (0, cs))
        match cs with
        | [] =>
            let total : Int := 3600 * hh + 60 * mm + ss
            if total < 86400 then some (some (if c = '+' then total else -total))
            else none
        | _ => none
      else none

/-- After the date: either nothing (midnight, naive), or one arbitrary
separator character followed by the time part and the optional offset. -/
def parseTimeAndTz : List Char → Option ((Nat × Nat × Nat × Nat) × Option Int)
  | [] => some ((0, 0, 0, 0), none)
  | _sep :: rest => do
      let (t, cs2) ← parseTime rest
      let tz ← parseTz cs2
      some (t, tz)

/-- `datetime.datetime.fromisoformat` (pre-3.11 grammar, as the source's own
comment assumes: "fromisoformat doesn't accept a trailing 'Z'"). -/
def fromisoformat (s : String) : Option PyDateTime := do
  let ((y, m, d), cs) ← parseDate s.data
  let ((h, mi, se, us), tz) ← parseTimeAndTz cs
  some ⟨daysFromCivil (y : Int) (m : Int) (d : Int) * 86400 +
          (3600 * (h : Int) + 60 * (mi : Int) + (se : Int)), us, tz⟩

/-! ### The driver (src/main.py) -/

/-- The result of `parse_timestamp` together with whether the warning
(`print("Warning: ...")`) was emitted. -/
structure ParseResult where
  value : PyDateTime
  warned : Bool
deriving DecidableEq, Repr

/-- `parse_timestamp` (src/main.py:19-35). Both calls to
`datetime.now(timezone.utc)` are modelled by the same parameters
`nowSec`/`nowUsec`. -/
def parseTimestamp (localOff nowSec : Int) (nowUsec : Nat) (s0 : String) :
    ParseResult :=
  let s := pyStrip s0
  if s = "" then ⟨⟨nowSec, nowUsec, some 0⟩, false⟩
  else if pyEndsWith s 'Z' then
    match fromisoformat (pyDropLast s ++ "+00:00") with
    | some d => ⟨replaceTz none (astimezoneToUtc localOff d), false⟩
    | none => ⟨⟨nowSec, nowUsec, some 0⟩, true⟩
  else
    match fromisoformat s with
    | some d => ⟨d, false⟩
    | none => ⟨⟨nowSec, nowUsec, some 0⟩, true⟩

/-- `prompt_for_record` (src/main.py:38-48) over a list of pending console
input lines. `.ok (none, rest)` is the `return None` of the empty-company
sentinel (an exhausted input list is treated as an empty line); a `TypeError`
escaping the constructor would be `.error` (it cannot: the timestamp passed is
always a datetime). -/
def promptForRecord (localOff nowSec : Int) (nowUsec : Nat) :
    List String → Except String (Option ApplicationRecord × List String)
  | [] => .ok (none, [])
  | company :: rest =>
      let c := pyStrip company
      if c = "" then .ok (none, rest)
      else
        let appId := pyStrip (rest.headD "")
        let tsRaw := pyStrip ((rest.drop 1).headD "")
        let ts := parseTimestamp localOff nowSec nowUsec tsRaw
        match mkRecord localOff nowSec nowUsec (some (.dt ts.value)) c appId with
        | .ok r => .ok (some r, rest.drop 2)
        | .error e => .error e

/-- `interactive_mode` (src/main.py:90-100): repeat `prompt_for_record`;
`None` breaks the loop, otherwise append to the file and continue. The body
of `prompt_for_record` is inlined so that the recursion is on the input list.
The result is the final file state (or a propagated error). -/
def interactiveMode (localOff nowSec : Int) (nowUsec : Nat) :
    List String → Option String → Except String (Option String)
  | [], file => .ok file
  | company :: rest, file =>
      let c := pyStrip company
      if c = "" then .ok file
      else
        let appId := pyStrip (rest.headD "")
        let tsRaw := pyStrip ((rest.drop 1).headD "")
        let ts := parseTimestamp localOff nowSec nowUsec tsRaw
        match mkRecord localOff nowSec nowUsec (some (.dt ts.value)) c appId with
        | .ok r =>
            interactiveMode localOff nowSec nowUsec (rest.drop 2)
              (some (appendToCsv r file))
        | .error e => .error e
  termination_by inputs _ => inputs.length
  decreasing_by simp [List.length_drop]; omega

/-! ### Helper lemmas -/

theorem pad2_length (n : Nat) : (pad2 n).length = 2 := rfl

theorem pad4_length (n : Nat) : (pad4 n).length = 4 := rfl

theorem isoFormatSec_length (t : Int) : (isoFormatSec t).length = 19 := by
  have hDash : ("-" : String).length = 1 := rfl
  have hT : ("T" : String).length = 1 := rfl
  have hColon : (":" : String).length = 1 := rfl
  unfold isoFormatSec
  simp [String.length_append, pad2_length, pad4_length, hDash, hT, hColon]

theorem appendToCsv_none (r : ApplicationRecord) :
    appendToCsv r none = csvRowStr CSV_HEADER ++ csvRowStr (toCsvRow r) := by
  simp [appendToCsv]

theorem appendToCsv_none_ne_empty (r : ApplicationRecord) :
    appendToCsv r none ≠ "" := by
  rw [appendToCsv_none]
  intro h
  have h2 := congrArg String.length h
  rw [String.length_append] at h2
  have h3 : (csvRowStr CSV_HEADER).length = 39 := by decide
  have h4 : ("" : String).length = 0 := rfl
  omega

/-! ### The claims -/

/-- C1: for every structured datetime value passed to the `ApplicationRecord`
constructor or to its timestamp setter, the stored timestamp text equals the
value's instant converted to UTC (a zone-naive value being taken as already
UTC, with no shift), truncated to whole seconds, and formatted as
`YYYY-MM-DDTHH:MM:SSZ` (19 characters of date-time plus the `Z` suffix);
the microsecond component never influences the result. -/
theorem c1_datetime_stored_as_utc_iso (localOff nowSec : Int) (nowUsec : Nat)
    (d : PyDateTime) (c a : String) (r : ApplicationRecord) :
    mkRecord localOff nowSec nowUsec (some (.dt d)) c a =
      .ok ⟨isoFormatSec (d.sec - d.tz.getD 0) ++ "Z", c, a⟩ ∧
    setTimestamp localOff r (.dt d) =
      .ok { r with timestamp := isoFormatSec (d.sec - d.tz.getD 0) ++ "Z" } ∧
    (∀ u : Nat, toIsoUtc localOff (.dt ⟨d.sec, u, d.tz⟩) = toIsoUtc localOff (.dt d)) ∧
    (isoFormatSec (d.sec - d.tz.getD 0)).length = 19 := by
  obtain ⟨sec, usec, tz⟩ := d
  cases tz <;>
    simp [mkRecord, setTimestamp, toIsoUtc, replaceTz, astimezoneToUtc,
      pyIsoformatSec, offsetSuffix, isoFormatSec_length]

/-- C2: appending the record `("2024-01-15T10:30:00Z", "Acme", "APP-001")` to
a fresh file (nonexistent or empty), then reading the file back as delimited
text, yields the header row followed by exactly one data row equal to the
record's fields. -/
theorem c2_roundtrip_single_record :
    mkRecord 0 0 0 (some (.str "2024-01-15T10:30:00Z")) "Acme" "APP-001" =
      .ok ⟨"2024-01-15T10:30:00Z", "Acme", "APP-001"⟩ ∧
    parseCsv (appendToCsv ⟨"2024-01-15T10:30:00Z", "Acme", "APP-001"⟩ none) =
      [["timestamp", "company_name", "application_id"],
       ["2024-01-15T10:30:00Z", "Acme", "APP-001"]] ∧
    parseCsv (appendToCsv ⟨"2024-01-15T10:30:00Z", "Acme", "APP-001"⟩ (some "")) =
      [["timestamp", "company_name", "application_id"],
       ["2024-01-15T10:30:00Z", "Acme", "APP-001"]] := by
  refine ⟨rfl, ?_, ?_⟩ <;> decide

/-- C3: `append_to_csv` writes the header exactly when the file does not
exist or is empty at the time of the call; appending to a non-empty file
appends only the data row; appending two records to a fresh file therefore
yields exactly one header row followed by the two data rows in submission
order. -/
theorem c3_header_once (r r2 : ApplicationRecord) (s : String) :
    appendToCsv r none = csvRowStr CSV_HEADER ++ csvRowStr (toCsvRow r) ∧
    appendToCsv r (some "") = csvRowStr CSV_HEADER ++ csvRowStr (toCsvRow r) ∧
    (s ≠ "" → appendToCsv r (some s) = s ++ csvRowStr (toCsvRow r)) ∧
    appendToCsv r2 (some (appendToCsv r none)) =
      csvRowStr CSV_HEADER ++ (csvRowStr (toCsvRow r) ++ csvRowStr (toCsvRow r2)) := by
  refine ⟨appendToCsv_none r, by simp [appendToCsv], ?_, ?_⟩
  · intro h
    simp [appendToCsv, h]
  · have hx := appendToCsv_none r
    have hne := appendToCsv_none_ne_empty r
    rw [hx] at hne ⊢
    simp [appendToCsv, hne, String.append_assoc]

/-- Witness for C3 at concrete inputs (in particular discharging the
non-empty-file hypothesis of the no-header conjunct). -/
theorem c3_header_once_witness :
    appendToCsv ⟨"2024-01-15T10:30:00Z", "Acme", "APP-001"⟩ (some "existing\r\n") =
      "existing\r\n" ++
        csvRowStr (toCsvRow ⟨"2024-01-15T10:30:00Z", "Acme", "APP-001"⟩) :=
  (c3_header_once ⟨"2024-01-15T10:30:00Z", "Acme", "APP-001"⟩
    ⟨"2024-01-15T10:30:00Z", "Acme", "APP-001"⟩ "existing\r\n").2.2.1 (by decide)

/-- C4 counterexample: the claim says every successfully parsed non-empty
input — also one with an explicit numeric offset — comes back converted to
UTC and naive. On `"2024-01-15T10:30:00+02:00"` the parse succeeds (no
warning), yet the value keeps its `+02:00` zone (`tz = some 7200`) and its
wall-clock seconds are unshifted: the non-`Z` branch of `parse_timestamp`
returns `fromisoformat`'s value unchanged. -/
theorem c4_counterexample :
    (parseTimestamp 0 0 0 "2024-01-15T10:30:00+02:00").warned = false ∧
    parseTimestamp 0 0 0 "2024-01-15T10:30:00+02:00" =
      ⟨⟨1705314600, 0, some 7200⟩, false⟩ ∧
    ¬ (parseTimestamp 0 0 0 "2024-01-15T10:30:00+02:00").value.tz = none := by
  refine ⟨rfl, by decide, by decide⟩

/-- C4 amended: only a `'Z'`-suffixed input that parses successfully is
converted to UTC and returned naive (a hypothetically naive parse result
would be interpreted at the system local offset, which is what
`astimezone` does); any other successfully parsed input is returned exactly
as `fromisoformat` produced it — in particular an input with an explicit
numeric offset stays zone-aware and unconverted. -/
theorem c4_amended_success_branches (localOff nowSec : Int) (nowUsec : Nat)
    (s : String) (d : PyDateTime)
    (h1 : pyStrip s ≠ "")
    (h2 : fromisoformat (if pyEndsWith (pyStrip s) 'Z'
            then pyDropLast (pyStrip s) ++ "+00:00" else pyStrip s) = some d) :
    (parseTimestamp localOff nowSec nowUsec s).value =
      if pyEndsWith (pyStrip s) 'Z'
      then ⟨d.sec - d.tz.getD localOff, d.usec, none⟩
      else d := by
  unfold parseTimestamp
  by_cases hZ : pyEndsWith (pyStrip s) 'Z'
  · rw [if_pos hZ] at h2
    obtain ⟨ds, du, dtz⟩ := d
    cases dtz <;>
      simp [h1, hZ, h2, replaceTz, astimezoneToUtc]
  · rw [if_neg hZ] at h2
    simp [h1, hZ, h2]

/-- Witness for C4's amended theorem at the `'Z'`-suffixed input
`"2024-01-15T10:30:00Z"`. -/
theorem c4_amended_success_branches_witness :
    (parseTimestamp 5 99 7 "2024-01-15T10:30:00Z").value = ⟨1705314600, 0, none⟩ := by
  have h := c4_amended_success_branches 5 99 7 "2024-01-15T10:30:00Z"
    ⟨1705314600, 0, some 0⟩ (by decide) (by decide)
  exact h.trans (by decide)

/-- C5: `parse_timestamp` never lets a parse failure escape: whenever the
(stripped, non-empty) input fails to parse — on whichever branch it took —
the helper warns and returns the current UTC time. (In the embedding the
`try/except` is the total `match` on the parser's `Option` result; the
function is total by construction, which is the "never raises" part.) -/
theorem c5_parse_failure_falls_back_to_now (localOff nowSec : Int) (nowUsec : Nat)
    (s : String)
    (h1 : pyStrip s ≠ "")
    (h2 : fromisoformat (if pyEndsWith (pyStrip s) 'Z'
            then pyDropLast (pyStrip s) ++ "+00:00" else pyStrip s) = none) :
    parseTimestamp localOff nowSec nowUsec s = ⟨⟨nowSec, nowUsec, some 0⟩, true⟩ := by
  unfold parseTimestamp
  by_cases hZ : pyEndsWith (pyStrip s) 'Z'
  · rw [if_pos hZ] at h2
    simp [h1, hZ, h2]
  · rw [if_neg hZ] at h2
    simp [h1, hZ, h2]

/-- Witness for C5 at the malformed input `"not-a-date"` from the claim. -/
theorem c5_parse_failure_falls_back_to_now_witness :
    parseTimestamp 3 1000 5 "not-a-date" = ⟨⟨1000, 5, some 0⟩, true⟩ :=
  c5_parse_failure_falls_back_to_now 3 1000 5 "not-a-date" (by decide) (by decide)

/-- C6: a string timestamp — any string — is stored verbatim by the
constructor and by the setter, with no validation and no modification. -/
theorem c6_string_timestamp_verbatim (localOff nowSec : Int) (nowUsec : Nat)
    (s c a : String) (r : ApplicationRecord) :
    mkRecord localOff nowSec nowUsec (some (.str s)) c a = .ok ⟨s, c, a⟩ ∧
    setTimestamp localOff r (.str s) = .ok { r with timestamp := s } :=
  ⟨rfl, rfl⟩

/-- C7: a timestamp value that is neither a datetime nor a string makes the
constructor and the setter fail with the `TypeError` (which propagates: the
result is `.error`, so no record is constructed and no field is updated). -/
theorem c7_other_type_raises (localOff nowSec : Int) (nowUsec : Nat)
    (c a : String) (r : ApplicationRecord) :
    mkRecord localOff nowSec nowUsec (some .other) c a =
      .error "timestamp must be a datetime or ISO8601 string" ∧
    setTimestamp localOff r .other =
      .error "timestamp must be a datetime or ISO8601 string" :=
  ⟨rfl, rfl⟩

/-- C8: in console mode, an empty or whitespace-only company name makes
`prompt_for_record` return `None` without constructing a record, and the
interactive loop then terminates with the file untouched. -/
theorem c8_empty_company_ends_loop (localOff nowSec : Int) (nowUsec : Nat)
    (company : String) (rest : List String) (file : Option String)
    (h : pyStrip company = "") :
    promptForRecord localOff nowSec nowUsec (company :: rest) = .ok (none, rest) ∧
    interactiveMode localOff nowSec nowUsec (company :: rest) file = .ok file := by
  constructor
  · simp [promptForRecord, h]
  · rw [interactiveMode]
    simp [h]

/-- Witness for C8: a whitespace-only company line, with a non-empty file. -/
theorem c8_empty_company_ends_loop_witness :
    promptForRecord 0 0 0 ["   "] = .ok (none, []) ∧
    interactiveMode 0 0 0 ["   "] (some "x") = .ok (some "x") :=
  c8_empty_company_ends_loop 0 0 0 "   " [] (some "x") (by decide)

/-- C9: `append_to_csv` leaves the record's in-memory state unchanged — the
receiver after the call is the record it was called on, fields included, on
the success path and on the I/O-error path alike. -/
theorem c9_append_preserves_record (r : ApplicationRecord) (file : Option String)
    (ioOk : Bool) :
    (appendToCsvM r file ioOk).1 = r ∧
    (appendToCsvM r file ioOk).1.timestamp = r.timestamp ∧
    (appendToCsvM r file ioOk).1.company_name = r.company_name ∧
    (appendToCsvM r file ioOk).1.application_id = r.application_id :=
  ⟨rfl, rfl, rfl, rfl⟩

/-- C10: for empty or whitespace-only input, `parse_timestamp` returns the
current instant as a timezone-aware UTC value (`tz = some 0`, no warning) —
in contrast to the naive value (`tz = none`) its successful `'Z'` branch
produces, e.g. on `"2024-01-15T10:30:00Z"`. -/
theorem c10_empty_input_aware_utc_now (localOff nowSec : Int) (nowUsec : Nat)
    (s : String) (h : pyStrip s = "") :
    parseTimestamp localOff nowSec nowUsec s = ⟨⟨nowSec, nowUsec, some 0⟩, false⟩ ∧
    (parseTimestamp localOff nowSec nowUsec s).value.tz = some 0 ∧
    (parseTimestamp localOff nowSec nowUsec "2024-01-15T10:30:00Z").value.tz = none := by
  refine ⟨by simp [parseTimestamp, h], by simp [parseTimestamp, h], ?_⟩
  unfold parseTimestamp
  rw [if_neg (by decide : ¬ pyStrip "2024-01-15T10:30:00Z" = ""),
    if_pos (by decide : pyEndsWith (pyStrip "2024-01-15T10:30:00Z") 'Z' = true),
    show fromisoformat (pyDropLast (pyStrip "2024-01-15T10:30:00Z") ++ "+00:00") =
      some ⟨1705314600, 0, some 0⟩ from by decide]
  rfl

/-- Witness for C10 at a whitespace-only input. -/
theorem c10_empty_input_aware_utc_now_witness :
    parseTimestamp 2 50 6 " \t " = ⟨⟨50, 6, some 0⟩, false⟩ :=
  (c10_empty_input_aware_utc_now 2 50 6 " \t " (by decide)).1
